import Mathlib

/-!
# Verification of the data-forwarding frontend (thingspanel-frontend-community)

Shallow embedding of the data-forwarding screens:
* the rule-editor modal (`rule-modal.vue`): target-config encode/decode
  (`saveTargetConfig` / `editTargetConfig`), target summaries
  (`getTargetSummary`), group-tree flattening (`flattenGroups`),
  option loading (`loadOptions`) and submission (`handleSubmit`);
* the rule list screen (`index.vue`): `handleToggleStatus`;
* the script tester (`script-test-modal.vue`): `handleTest`;
* the script editor (`script-modal.vue`): `loadEditData` and
  `defaultScriptContent`.

JavaScript/JSON values are modelled by the inductive `JsonVal`.  The
`config` string field of a forwarding target is modelled by
`Option JsonVal`: `some j` stands for a string that `JSON.parse` turns
into the value `j`, and `none` for a string that is not valid JSON (on
which `JSON.parse` throws).  `JSON.stringify` of a value built from
strings, integers in range and duplicate-free objects produces a string
that parses back to the structurally identical value, so the
stringify-then-parse channel is the identity on the `JsonVal` side.
JSON numbers are modelled as integers; every number the embedded
components manipulate (timeout, port, qos, enabled) is an integer.
-/

/-- A JavaScript value as produced by `JSON.parse`. -/
inductive JsonVal where
  | null : JsonVal
  | bool : Bool → JsonVal
  | num : Int → JsonVal
  | str : String → JsonVal
  | arr : List JsonVal → JsonVal
  | obj : List (String × JsonVal) → JsonVal
deriving Repr

/-- JavaScript truthiness of a value: `false`, `0`, `''` and `null` are
falsy, every object (including `{}` and `[]`) is truthy. -/
def jsTruthy : JsonVal → Bool
  | .null => false
  | .bool b => b
  | .num n => n != 0
  | .str s => s != ""
  | .arr _ => true
  | .obj _ => true

/-- Property lookup in an object's field list.  `JSON.parse` assigns
duplicate keys in order, so the last occurrence wins. -/
def objLookup (fs : List (String × JsonVal)) (k : String) : Option JsonVal :=
  fs.foldl (fun acc p => if p.1 = k then some p.2 else acc) none

/-- JavaScript property access `v.k` on a non-`null` value: objects are
looked up, primitives and arrays yield `undefined` (`none`) for the
property names used by this code.  Access on `null` throws and is
handled separately at each call site. -/
def getProp (v : JsonVal) (k : String) : Option JsonVal :=
  match v with
  | .obj fs => objLookup fs k
  | _ => none

/-- JavaScript `v || d` where `v` may be `undefined` (`none`): yields
`v` when truthy, otherwise the default `d`. -/
def jsOrDefault (v : Option JsonVal) (d : JsonVal) : JsonVal :=
  match v with
  | some x => if jsTruthy x then x else d
  | none => d

/-- JavaScript `v ?? d`: the default only replaces `undefined` and
`null`. -/
def jsNullishDefault (v : Option JsonVal) (d : JsonVal) : JsonVal :=
  match v with
  | some .null => d
  | some x => x
  | none => d

/-- JavaScript `v || d` on an optional string field, as in
`data.name || ''`: `undefined` and `''` both give the default. -/
def jsOrStr (v : Option String) (d : String) : String :=
  match v with
  | some s => if s = "" then d else s
  | none => d

mutual

/-- String conversion applied by template-literal interpolation. -/
def jsDisplay : JsonVal → String
  | .null => "null"
  | .bool b => cond b "true" "false"
  | .num n => toString n
  | .str s => s
  | .arr xs => jsDisplayArr xs
  | .obj _ => "[object Object]"

/-- Array-to-string: elements joined by commas, `null` elements shown
empty. -/
def jsDisplayArr : List JsonVal → String
  | [] => ""
  | [x] => jsDisplayElem x
  | x :: xs => jsDisplayElem x ++ "," ++ jsDisplayArr xs

/-- A `null` inside an array renders as the empty string. -/
def jsDisplayElem : JsonVal → String
  | .null => ""
  | v => jsDisplay v

end

example : jsTruthy (.obj []) = true := by decide
example : jsOrDefault (some (.str "")) (.str "POST") = .str "POST" := rfl
example : objLookup [("a", .num 1), ("a", .num 2)] "a" = some (.num 2) := rfl

/-! ## Data model (`src/service/api/data-forwarding.ts`) -/

/-- `TargetType = 'http' | 'mqtt'`. -/
inductive TargetType where
  | http : TargetType
  | mqtt : TargetType
deriving DecidableEq, Repr

/-- `SourceType`: Device = 1, Product = 2, Group = 3. -/
inductive SourceType where
  | device : SourceType
  | product : SourceType
  | group : SourceType
deriving DecidableEq, Repr

/-- `ForwardingSource`. -/
structure ForwardingSource where
  id : Option String := none
  rule_id : Option String := none
  source_type : SourceType
  source_id : String
deriving Repr

/-- `ForwardingTarget`; the `config` string is modelled by the result of
`JSON.parse` on it (`none` when the string is not valid JSON). -/
structure ForwardingTarget where
  id : Option String := none
  rule_id : Option String := none
  target_type : TargetType
  config : Option JsonVal
deriving Repr

/-! ## Rule editor modal (`rule-modal.vue`) -/

namespace RuleModal

/-- The reactive `httpConfig` editor model.  Each field holds whatever
JavaScript value the decode step assigned to it, hence `JsonVal`. -/
structure HttpConfigState where
  url : JsonVal
  method : JsonVal
  headers : JsonVal
  secret : JsonVal
  timeout : JsonVal
deriving Repr

/-- The reactive `mqttConfig` editor model. -/
structure MqttConfigState where
  broker : JsonVal
  port : JsonVal
  topic : JsonVal
  username : JsonVal
  password : JsonVal
  client_id : JsonVal
  qos : JsonVal
deriving Repr

/-- Initial value of the reactive `httpConfig`:
`{ url: '', method: 'POST', headers: {}, secret: '', timeout: 30 }`. -/
def initialHttpConfig : HttpConfigState :=
  { url := .str "", method := .str "POST", headers := .obj [],
    secret := .str "", timeout := .num 30 }

/-- Initial value of the reactive `mqttConfig`:
`{ broker: '', port: 1883, topic: '', username: '', password: '',
client_id: '', qos: 1 }`. -/
def initialMqttConfig : MqttConfigState :=
  { broker := .str "", port := .num 1883, topic := .str "",
    username := .str "", password := .str "", client_id := .str "",
    qos := .num 1 }

/-- The reactive `formModel` of the rule editor. -/
structure RuleFormModel where
  name : String
  description : String
  script_id : Option String
  remark : String
  sources : List ForwardingSource
  targets : List ForwardingTarget
deriving Repr

/-- The component state touched by `editTargetConfig` and
`saveTargetConfig`. -/
structure ModalState where
  formModel : RuleFormModel
  currentTargetIndex : Option Nat
  targetConfigVisible : Bool
  targetConfigType : TargetType
  httpConfig : HttpConfigState
  mqttConfig : MqttConfigState
deriving Repr

/-- `JSON.stringify(httpConfig)`: an object literal with the five
fields in declaration order. -/
def stringifyHttpConfig (h : HttpConfigState) : JsonVal :=
  .obj [("url", h.url), ("method", h.method), ("headers", h.headers),
        ("secret", h.secret), ("timeout", h.timeout)]

/-- `JSON.stringify(mqttConfig)`. -/
def stringifyMqttConfig (m : MqttConfigState) : JsonVal :=
  .obj [("broker", m.broker), ("port", m.port), ("topic", m.topic),
        ("username", m.username), ("password", m.password),
        ("client_id", m.client_id), ("qos", m.qos)]

/-- The `Object.assign(httpConfig, {...})` step of `editTargetConfig`
on the parsed config `j`.  Property access on `null` throws (the object
literal is built before `Object.assign` runs), which the surrounding
`catch` swallows: that case is `none`. -/
def decodeHttpFields (j : JsonVal) : Option HttpConfigState :=
  match j with
  | .null => none
  | _ => some
      { url := jsOrDefault (getProp j "url") (.str "")
        method := jsOrDefault (getProp j "method") (.str "POST")
        headers := jsOrDefault (getProp j "headers") (.obj [])
        secret := jsOrDefault (getProp j "secret") (.str "")
        timeout := jsOrDefault (getProp j "timeout") (.num 30) }

/-- The `Object.assign(mqttConfig, {...})` step of `editTargetConfig`;
`qos` uses `??` instead of `||`. -/
def decodeMqttFields (j : JsonVal) : Option MqttConfigState :=
  match j with
  | .null => none
  | _ => some
      { broker := jsOrDefault (getProp j "broker") (.str "")
        port := jsOrDefault (getProp j "port") (.num 1883)
        topic := jsOrDefault (getProp j "topic") (.str "")
        username := jsOrDefault (getProp j "username") (.str "")
        password := jsOrDefault (getProp j "password") (.str "")
        client_id := jsOrDefault (getProp j "client_id") (.str "")
        qos := jsNullishDefault (getProp j "qos") (.num 1) }

/-- `editTargetConfig(index)`.  Reads `formModel.targets[index]`; when
the index is out of range the subsequent `target.target_type` access
throws (`.error`, carrying the state after the one assignment that
already happened).  Otherwise it records the index and type, tries to
parse and assign the config inside `try`/`catch` (parse failure or a
`null` config leaves both editor models untouched), and opens the
sub-dialog. -/
def editTargetConfig (index : Nat) (s : ModalState) :
    Except ModalState ModalState :=
  match s.formModel.targets[index]? with
  | none => .error { s with currentTargetIndex := some index }
  | some target =>
    let s1 := { s with currentTargetIndex := some index,
                       targetConfigType := target.target_type }
    let s2 :=
      match target.config with
      | none => s1
      | some j =>
        match target.target_type with
        | .http =>
          match decodeHttpFields j with
          | some h => { s1 with httpConfig := h }
          | none => s1
        | .mqtt =>
          match decodeMqttFields j with
          | some m => { s1 with mqttConfig := m }
          | none => s1
    .ok { s2 with targetConfigVisible := true }

/-- `saveTargetConfig()`.  Returns immediately when no index is
recorded; otherwise re-encodes the active editor model into the target
at the recorded index (an out-of-range index makes the write to
`target.config` throw), closes the sub-dialog and clears the index. -/
def saveTargetConfig (s : ModalState) : Except ModalState ModalState :=
  match s.currentTargetIndex with
  | none => .ok s
  | some i =>
    match s.formModel.targets[i]? with
    | none => .error s
    | some t =>
      let t1 := { t with
        config := some (match s.targetConfigType with
          | .http => stringifyHttpConfig s.httpConfig
          | .mqtt => stringifyMqttConfig s.mqttConfig)
        target_type := s.targetConfigType }
      .ok { s with
        formModel := { s.formModel with
          targets := s.formModel.targets.set i t1 }
        targetConfigVisible := false
        currentTargetIndex := none }

/-- `getTargetSummary(target)`.  `JSON.parse` failure (and the
`TypeError` from `config.url` on a parsed `null`) is caught and gives
the dash.  The http branch returns `config.url || '-'` verbatim; the
mqtt branch builds a template string. -/
def getTargetSummary (t : ForwardingTarget) : JsonVal :=
  match t.config with
  | none => .str "-"
  | some config =>
    match config with
    | .null => .str "-"
    | _ =>
      match t.target_type with
      | .http => jsOrDefault (getProp config "url") (.str "-")
      | .mqtt =>
        let broker := jsOrDefault (getProp config "broker") (.str "-")
        let topicPart :=
          match getProp config "topic" with
          | some tv =>
            if jsTruthy tv then " (" ++ jsDisplay tv ++ ")" else ""
          | none => ""
        .str (jsDisplay broker ++ topicPart)

end RuleModal

example :
    RuleModal.decodeHttpFields
      (RuleModal.stringifyHttpConfig RuleModal.initialHttpConfig) =
    some RuleModal.initialHttpConfig := rfl

/-! ## Group tree flattening and option loading (`rule-modal.vue`) -/

/-- A select option `{ label, value }`. -/
structure SelectOption where
  label : String
  value : String
deriving DecidableEq, Repr

namespace RuleModal

/-- The `group` object of a group-tree node; `id` and `name` may be
absent. -/
structure GroupInfo where
  id : Option String
  name : Option String
deriving Repr

/-- `GroupTreeNode = { group: { id, name }, children?: GroupTreeNode[] }`.
An absent `children` array behaves exactly like an empty one (both fail
the `children?.length` test), so it is modelled as `[]`. -/
inductive GroupNode where
  | mk (group : Option GroupInfo) (children : List GroupNode) : GroupNode
deriving Repr

/-- The `group` component of a node. -/
def GroupNode.group : GroupNode → Option GroupInfo
  | .mk g _ => g

/-- The `children` component of a node. -/
def GroupNode.children : GroupNode → List GroupNode
  | .mk _ cs => cs

/-- `flattenGroups(nodes, result)`: for each node, push
`{ label: group.name, value: group.id }` when `group?.id && group?.name`
is truthy (group present, id and name present and non-empty), then
recurse into the children when `children?.length` is truthy. -/
def flattenGroups : List GroupNode → List SelectOption → List SelectOption
  | [], result => result
  | GroupNode.mk group children :: rest, result =>
    let r1 :=
      match group with
      | some g =>
        match g.id, g.name with
        | some i, some n =>
          if i != "" && n != "" then result ++ [⟨n, i⟩] else result
        | _, _ => result
      | none => result
    let r2 := if children.length != 0 then flattenGroups children r1 else r1
    flattenGroups rest r2

/-- Specification-side description of one node's own contribution:
the claim's "every node lacking a group id or a group name contributes
no option itself". -/
def groupOption (group : Option GroupInfo) : List SelectOption :=
  match group with
  | some g =>
    match g.id, g.name with
    | some i, some n => if i != "" && n != "" then [⟨n, i⟩] else []
    | _, _ => []
  | none => []

mutual

/-- Specification-side depth-first flattening of one node: its own
option (if any) strictly before everything contributed by its
descendants, whose subtrees are visited in order. -/
def dfNode : GroupNode → List SelectOption
  | .mk group children => groupOption group ++ dfList children

/-- Specification-side depth-first flattening of a forest, preserving
traversal order. -/
def dfList : List GroupNode → List SelectOption
  | [] => []
  | n :: rest => dfNode n ++ dfList rest

end

end RuleModal

/-! ## Network results

Every API call returns `{ data, error }`; `error` is populated on
transport or server failure.  A fetch that *rejects* (throws) is
modelled by `Except.error`. -/

/-- The `{ data, error }` pair returned by the request wrapper. -/
structure ApiResp (α : Type) where
  data : Option α
  error : Option String
deriving Repr

namespace RuleModal

/-- An entry of the scripts list used by `loadOptions`
(`{ label: item.name, value: item.id }`). -/
structure ScriptItem where
  id : String
  name : String
deriving Repr

/-- An entry of the device or product list used by `loadOptions`
(`{ label: item.name || item.id, value: item.id }`). -/
structure ListItem where
  id : String
  name : Option String
deriving Repr

/-- A paged response body whose `list` may be absent
(`res.data?.list`). -/
structure PagedData (α : Type) where
  list : Option (List α)
deriving Repr

/-- `groupsRes.data`: either already an array of nodes or a single
root node (`Array.isArray` check). -/
inductive GroupsData where
  | arr (nodes : List GroupNode) : GroupsData
  | single (node : GroupNode) : GroupsData
deriving Repr

/-- The four option lists populated by `loadOptions`. -/
structure OptionsState where
  scriptOptions : List SelectOption
  deviceOptions : List SelectOption
  productOptions : List SelectOption
  groupOptions : List SelectOption
deriving Repr

/-- `loadOptions()`: a 4-way `Promise.all` inside `try`/`catch`.  If any
of the four fetches rejects, `Promise.all` rejects, the `catch`
swallows the error and no option list is written.  On joint success
each list is populated only when its branch's `data` (and `list` where
applicable) is present. -/
def loadOptions
    (scriptsRes : Except Unit (Option (List ScriptItem)))
    (devicesRes : Except Unit (Option (PagedData ListItem)))
    (productsRes : Except Unit (Option (PagedData ListItem)))
    (groupsRes : Except Unit (Option GroupsData))
    (st : OptionsState) : OptionsState :=
  match scriptsRes, devicesRes, productsRes, groupsRes with
  | .ok sData, .ok dData, .ok pData, .ok gData =>
    let st1 :=
      match sData with
      | some l =>
        { st with scriptOptions := l.map (fun it => ⟨it.name, it.id⟩) }
      | none => st
    let st2 :=
      match dData with
      | some pd =>
        match pd.list with
        | some l =>
          let dOpts := l.map (fun it => ⟨jsOrStr it.name it.id, it.id⟩)
          { st1 with deviceOptions := dOpts }
        | none => st1
      | none => st1
    let st3 :=
      match pData with
      | some pd =>
        match pd.list with
        | some l =>
          let pOpts := l.map (fun it => ⟨jsOrStr it.name it.id, it.id⟩)
          { st2 with productOptions := pOpts }
        | none => st2
      | none => st2
    match gData with
    | some (.arr nodes) =>
      { st3 with groupOptions := flattenGroups nodes [] }
    | some (.single node) =>
      { st3 with groupOptions := flattenGroups [node] [] }
    | none => st3
  | _, _, _, _ => st

end RuleModal

/-! ## Rule submission (`rule-modal.vue`, `handleSubmit`) -/

namespace RuleModal

/-- Modal session mode (`props.type`). -/
inductive ModalType where
  | add : ModalType
  | edit : ModalType
deriving DecidableEq, Repr

/-- Modelled from the spec: `createRequiredFormRule` and the naive-ui
`formRef.validate()` machinery (`src/utils/form/rule` is not part of
this repository's sources); per §4.3/§7 the client-side required-field
validation on the rule `name` rejects exactly when `name` is empty,
before any network call. -/
def ruleFormValidates (fm : RuleFormModel) : Bool :=
  fm.name != ""

/-- The submission object built by `handleSubmit`:
`script_id: formModel.script_id || undefined` drops an absent or empty
script id. -/
structure SubmitRule where
  id : Option String
  name : String
  description : String
  script_id : Option String
  remark : String
  sources : List ForwardingSource
  targets : List ForwardingTarget
deriving Repr

/-- A network call issued by `handleSubmit`. -/
inductive RuleCall where
  | create (d : SubmitRule) : RuleCall
  | update (d : SubmitRule) : RuleCall
deriving Repr

/-- Outcome of a `handleSubmit` invocation. -/
inductive SubmitOutcome where
  | validationRejected : SubmitOutcome
  | closedSuccess : SubmitOutcome
  | stayOpen : SubmitOutcome
deriving DecidableEq, Repr

/-- `handleSubmit()`.  `await formRef.value?.validate()` rejects (and
aborts before any request) when the form instance is present and
validation fails; when the form instance is absent the optional call
short-circuits and validation is skipped.  Then the submission object
is built and routed to update (edit mode with a truthy edit id) or
create; the modal closes only when the call's error channel is empty. -/
def handleSubmit (mode : ModalType) (editId : Option String)
    (formPresent : Bool) (fm : RuleFormModel)
    (createErr updateErr : SubmitRule → Option String) :
    List RuleCall × SubmitOutcome :=
  if formPresent && !ruleFormValidates fm then
    ([], .validationRejected)
  else
    let d : SubmitRule :=
      { id := none
        name := fm.name
        description := fm.description
        script_id := match fm.script_id with
          | some s => if s != "" then some s else none
          | none => none
        remark := fm.remark
        sources := fm.sources
        targets := fm.targets }
    let editIdTruthy :=
      match editId with
      | some s => s != ""
      | none => false
    if mode = .edit && editIdTruthy then
      let d1 := { d with id := editId }
      ([.update d1],
        if updateErr d1 = none then .closedSuccess else .stayOpen)
    else
      ([.create d],
        if createErr d = none then .closedSuccess else .stayOpen)

end RuleModal

/-! ## Rule list screen (`data-forward/index.vue`) -/

namespace RuleList

/-- The slice of a `ForwardingRule` row used by `handleToggleStatus`. -/
structure RuleRow where
  id : String
  enabled : Int
deriving DecidableEq, Repr

/-- The `{ id, enabled }` body of a status-update call. -/
structure RuleStatusParams where
  id : String
  enabled : Int
deriving DecidableEq, Repr

/-- `handleToggleStatus(row)`: computes
`newStatus = row.enabled === 1 ? 0 : 1`, issues one status-update call,
and writes `row.enabled = newStatus` only when the call's error channel
is empty.  Returns the updated row and the list of issued calls. -/
def handleToggleStatus (row : RuleRow)
    (statusErr : RuleStatusParams → Option String) :
    RuleRow × List RuleStatusParams :=
  let newStatus : Int := if row.enabled = 1 then 0 else 1
  let params : RuleStatusParams := ⟨row.id, newStatus⟩
  if statusErr params = none then
    ({ row with enabled := newStatus }, [params])
  else
    (row, [params])

end RuleList

/-! ## Script tester (`script-test-modal.vue`) -/

namespace ScriptTest

/-- The tester's reactive `formModel`. -/
structure TestFormModel where
  script_content : String
  test_data : String
deriving Repr

/-- `ScriptTestParams`: the body sent to the test endpoint. -/
structure ScriptTestParams where
  script_content : String
  test_data : String
deriving DecidableEq, Repr

/-- `ScriptTestResult`. -/
structure ScriptTestResult where
  success : Bool
  output : String
  error : String
deriving Repr

/-- A user-visible message toast. -/
inductive TestMsg where
  | warning (key : String) : TestMsg
  | success (key : String) : TestMsg
  | error (key : String) : TestMsg
deriving Repr

/-- `handleTest()`: with a falsy (empty) `script_content` it warns and
returns without any request; otherwise it clears the previous result,
issues exactly one test request with the current
`{ script_content, test_data }` and stores the result when the call
succeeds with data.  Returns the new `testResult`, the issued calls and
the shown messages. -/
def handleTest (fm : TestFormModel) (prev : Option ScriptTestResult)
    (resp : ScriptTestParams → ApiResp ScriptTestResult) :
    Option ScriptTestResult × List ScriptTestParams × List TestMsg :=
  if fm.script_content = "" then
    (prev, [], [.warning "dataForwarding.scriptRequired"])
  else
    let params : ScriptTestParams := ⟨fm.script_content, fm.test_data⟩
    let r := resp params
    match r.error, r.data with
    | none, some d =>
      (some d, [params],
        [if d.success then .success "dataForwarding.testSuccess"
         else .error "dataForwarding.testFailed"])
    | _, _ => (none, [params], [])

/-- `formatJson(jsonStr)`: pretty-print when the string parses as JSON
(modelled by the parse channel), raw text otherwise. -/
def formatJson (parsed : Option JsonVal) (raw : String)
    (pretty : JsonVal → String) : String :=
  match parsed with
  | some j => pretty j
  | none => raw

end ScriptTest

/-! ## Script editor (`script-modal.vue`) -/

namespace ScriptModal

/-- The script editor's reactive `formModel`. -/
structure ScriptFormModel where
  name : String
  description : String
  script_content : String
  remark : String
deriving DecidableEq, Repr

/-- The fields of a `ForwardingScript` detail response consumed by
`loadEditData`; each may be absent at runtime. -/
structure ScriptDetail where
  name : Option String
  description : Option String
  script_content : Option String
  remark : Option String
deriving Repr

/-- `defaultScriptContent()`: the Lua template shown for new scripts. -/
def defaultScriptContent : String :=
  "-- 数据转发 Lua 脚本示例\n-- payload: 原始消息（JSON 字符串）\n-- 返回值: 处理后的消息（JSON 字符串）\n\nlocal data = json.decode(payload)\n\n-- 在此处添加数据处理逻辑\n-- 例如: 添加处理时间戳\ndata.processed_at = os.time() * 1000\n\nreturn json.encode(data)"

/-- `resetForm()`. -/
def resetForm : ScriptFormModel :=
  { name := "", description := "",
    script_content := defaultScriptContent, remark := "" }

/-- `loadEditData()`: returns untouched when `props.editData?.id` is
falsy; otherwise fetches the detail and, when `data` is present,
populates every field with `data.field || default` — in particular
`script_content` falls back to the default Lua template when the stored
content is absent or empty. -/
def loadEditData (editId : Option String)
    (resp : String → ApiResp ScriptDetail)
    (fm : ScriptFormModel) : ScriptFormModel :=
  match editId with
  | none => fm
  | some i =>
    if i = "" then fm
    else
      match (resp i).data with
      | some d =>
        { name := jsOrStr d.name ""
          description := jsOrStr d.description ""
          script_content := jsOrStr d.script_content defaultScriptContent
          remark := jsOrStr d.remark "" }
      | none => fm

end ScriptModal

/-! ## Theorems -/

namespace RuleModal

/-- The accumulator threading of `flattenGroups` only ever appends: the
result is the incoming accumulator followed by the depth-first
flattening of the forest. -/
theorem flattenGroups_acc :
    ∀ (nodes : List GroupNode) (acc : List SelectOption),
      flattenGroups nodes acc = acc ++ dfList nodes
  | [], acc => by simp [flattenGroups, dfList]
  | .mk g cs :: rest, acc => by
    have hc := flattenGroups_acc cs
    have hr := flattenGroups_acc rest
    rw [flattenGroups.eq_def]; dsimp only
    rw [hr]
    have hM :
        (match g with
          | some gi =>
            match gi.id, gi.name with
            | some i, some n =>
              if i != "" && n != "" then acc ++ [⟨n, i⟩] else acc
            | _, _ => acc
          | none => acc) = acc ++ groupOption g := by
      rcases g with _ | ⟨gid, gname⟩
      · simp [groupOption]
      · rcases gid with _ | i <;> rcases gname with _ | n <;>
          simp [groupOption]
        split <;> simp
    rw [hM]
    have hcs :
        (if (cs.length != 0) = true then
            flattenGroups cs (acc ++ groupOption g)
          else acc ++ groupOption g) =
        (acc ++ groupOption g) ++ dfList cs := by
      cases cs with
      | nil => simp [dfList]
      | cons c cs' => simp [hc]
    rw [hcs, dfList, dfNode]
    simp

end RuleModal

namespace RuleModal

/-- C3: For every group tree of any depth, `flattenGroups` produces the
flat option list in depth-first traversal order (`dfList`), in which
every parent's own option (`groupOption`) is emitted strictly before
everything contributed by its children's subtrees, and a node whose
group lacks an id or a name (absent or empty) contributes no option
itself while its children are still flattened. -/
theorem flattenGroups_depth_first_order :
    (∀ (nodes : List GroupNode) (acc : List SelectOption),
        flattenGroups nodes acc = acc ++ dfList nodes) ∧
    (∀ (g : Option GroupInfo) (cs : List GroupNode),
        dfNode (.mk g cs) = groupOption g ++ dfList cs) ∧
    (∀ (cs : List GroupNode), dfNode (.mk none cs) = dfList cs) ∧
    (∀ (nm : Option String) (cs : List GroupNode),
        dfNode (.mk (some ⟨none, nm⟩) cs) = dfList cs) ∧
    (∀ (gid : Option String) (cs : List GroupNode),
        dfNode (.mk (some ⟨gid, none⟩) cs) = dfList cs) ∧
    (∀ (nm : Option String) (cs : List GroupNode),
        dfNode (.mk (some ⟨some "", nm⟩) cs) = dfList cs) ∧
    (∀ (gid : String) (cs : List GroupNode),
        dfNode (.mk (some ⟨some gid, some ""⟩) cs) = dfList cs) := by
  refine ⟨flattenGroups_acc, ?_, ?_, ?_, ?_, ?_, ?_⟩
  · intro g cs; rw [dfNode]
  · intro cs; rw [dfNode]; simp [groupOption]
  · intro nm cs; rw [dfNode]; cases nm <;> simp [groupOption]
  · intro gid cs; rw [dfNode]; cases gid <;> simp [groupOption]
  · intro nm cs; rw [dfNode]; cases nm <;> simp [groupOption]
  · intro gid cs; rw [dfNode]; simp [groupOption]

end RuleModal

theorem jsOrDefault_of_truthy {v d : JsonVal} (h : jsTruthy v = true) :
    jsOrDefault (some v) d = v := by
  simp [jsOrDefault, h]

theorem jsOrDefault_str_emptyDefault (s : String) :
    jsOrDefault (some (.str s)) (.str "") = .str s := by
  by_cases h : s = "" <;> simp [jsOrDefault, jsTruthy, h]

theorem jsNullishDefault_num (q : Int) (d : JsonVal) :
    jsNullishDefault (some (.num q)) d = .num q := by
  simp [jsNullishDefault]

namespace RuleModal

/-- The editor model holds a valid `HTTPTargetConfig`: a non-empty
`url`, a `method` from the closed set, a string-to-string `headers`
record (duplicate-free keys), a string `secret` and a `timeout` in
1–120. -/
def httpStateValid (h : HttpConfigState) : Bool :=
  (match h.url with | .str u => u != "" | _ => false) &&
  (match h.method with
    | .str m => m == "POST" || m == "PUT" || m == "GET"
    | _ => false) &&
  (match h.headers with
    | .obj fs =>
      fs.all (fun p => match p.2 with | .str _ => true | _ => false) &&
      decide (fs.map Prod.fst).Nodup
    | _ => false) &&
  (match h.secret with | .str _ => true | _ => false) &&
  (match h.timeout with
    | .num t => decide (1 ≤ t) && decide (t ≤ 120)
    | _ => false)

/-- The editor model holds a valid `MQTTTargetConfig`: non-empty
`broker` and `topic`, a `port` in 1–65535, string `username`,
`password` and `client_id`, and a `qos` in {0, 1, 2}. -/
def mqttStateValid (m : MqttConfigState) : Bool :=
  (match m.broker with | .str b => b != "" | _ => false) &&
  (match m.port with
    | .num p => decide (1 ≤ p) && decide (p ≤ 65535)
    | _ => false) &&
  (match m.topic with | .str t => t != "" | _ => false) &&
  (match m.username with | .str _ => true | _ => false) &&
  (match m.password with | .str _ => true | _ => false) &&
  (match m.client_id with | .str _ => true | _ => false) &&
  (match m.qos with
    | .num q => q == 0 || q == 1 || q == 2
    | _ => false)

/-- Decoding the stringified http editor model reproduces it exactly
when it holds a valid `HTTPTargetConfig`. -/
theorem decode_stringify_http (h : HttpConfigState)
    (hv : httpStateValid h = true) :
    decodeHttpFields (stringifyHttpConfig h) = some h := by
  obtain ⟨url, method, headers, secret, timeout⟩ := h
  simp only [httpStateValid, Bool.and_eq_true] at hv
  obtain ⟨⟨⟨⟨h1, h2⟩, h3⟩, h4⟩, h5⟩ := hv
  have t1 : jsTruthy url = true := by
    cases url <;> simp_all [jsTruthy]
  have t2 : jsTruthy method = true := by
    cases method <;> simp_all [jsTruthy]
    casesm* _ ∨ _
    all_goals simp [*]
  have t3 : jsTruthy headers = true := by
    cases headers <;> simp_all [jsTruthy]
  have t5 : jsTruthy timeout = true := by
    cases timeout <;> simp_all [jsTruthy]
    omega
  obtain ⟨sec, h4eq⟩ : ∃ sec, secret = .str sec := by
    cases secret <;> simp_all
  subst h4eq
  have g1 : getProp (stringifyHttpConfig ⟨url, method, headers, .str sec, timeout⟩) "url" = some url := rfl
  have g2 : getProp (stringifyHttpConfig ⟨url, method, headers, .str sec, timeout⟩) "method" = some method := rfl
  have g3 : getProp (stringifyHttpConfig ⟨url, method, headers, .str sec, timeout⟩) "headers" = some headers := rfl
  have g4 : getProp (stringifyHttpConfig ⟨url, method, headers, .str sec, timeout⟩) "secret" = some (.str sec) := rfl
  have g5 : getProp (stringifyHttpConfig ⟨url, method, headers, .str sec, timeout⟩) "timeout" = some timeout := rfl
  have hnotnull : stringifyHttpConfig ⟨url, method, headers, .str sec, timeout⟩ = JsonVal.obj [("url", url), ("method", method), ("headers", headers), ("secret", .str sec), ("timeout", timeout)] := rfl
  rw [decodeHttpFields.eq_def, hnotnull]
  dsimp only
  rw [← hnotnull, g1, g2, g3, g4, g5]
  rw [jsOrDefault_of_truthy t1, jsOrDefault_of_truthy t2,
      jsOrDefault_of_truthy t3, jsOrDefault_str_emptyDefault,
      jsOrDefault_of_truthy t5]

/-- Decoding the stringified mqtt editor model reproduces it exactly
when it holds a valid `MQTTTargetConfig`. -/
theorem decode_stringify_mqtt (m : MqttConfigState)
    (hv : mqttStateValid m = true) :
    decodeMqttFields (stringifyMqttConfig m) = some m := by
  obtain ⟨broker, port, topic, username, password, client_id, qos⟩ := m
  simp only [mqttStateValid, Bool.and_eq_true] at hv
  obtain ⟨⟨⟨⟨⟨⟨h1, h2⟩, h3⟩, h4⟩, h5⟩, h6⟩, h7⟩ := hv
  have t1 : jsTruthy broker = true := by
    cases broker <;> simp_all [jsTruthy]
  have t2 : jsTruthy port = true := by
    cases port <;> simp_all [jsTruthy]
    omega
  have t3 : jsTruthy topic = true := by
    cases topic <;> simp_all [jsTruthy]
  obtain ⟨un, h4eq⟩ : ∃ un, username = .str un := by
    cases username <;> simp_all
  obtain ⟨pw, h5eq⟩ : ∃ pw, password = .str pw := by
    cases password <;> simp_all
  obtain ⟨ci, h6eq⟩ : ∃ ci, client_id = .str ci := by
    cases client_id <;> simp_all
  obtain ⟨q, h7eq⟩ : ∃ q, qos = .num q := by
    cases qos <;> simp_all
  subst h4eq; subst h5eq; subst h6eq; subst h7eq
  have g1 : getProp (stringifyMqttConfig ⟨broker, port, topic, .str un, .str pw, .str ci, .num q⟩) "broker" = some broker := rfl
  have g2 : getProp (stringifyMqttConfig ⟨broker, port, topic, .str un, .str pw, .str ci, .num q⟩) "port" = some port := rfl
  have g3 : getProp (stringifyMqttConfig ⟨broker, port, topic, .str un, .str pw, .str ci, .num q⟩) "topic" = some topic := rfl
  have g4 : getProp (stringifyMqttConfig ⟨broker, port, topic, .str un, .str pw, .str ci, .num q⟩) "username" = some (.str un) := rfl
  have g5 : getProp (stringifyMqttConfig ⟨broker, port, topic, .str un, .str pw, .str ci, .num q⟩) "password" = some (.str pw) := rfl
  have g6 : getProp (stringifyMqttConfig ⟨broker, port, topic, .str un, .str pw, .str ci, .num q⟩) "client_id" = some (.str ci) := rfl
  have g7 : getProp (stringifyMqttConfig ⟨broker, port, topic, .str un, .str pw, .str ci, .num q⟩) "qos" = some (.num q) := rfl
  have hnotnull : stringifyMqttConfig ⟨broker, port, topic, .str un, .str pw, .str ci, .num q⟩ = JsonVal.obj [("broker", broker), ("port", port), ("topic", topic), ("username", .str un), ("password", .str pw), ("client_id", .str ci), ("qos", .num q)] := rfl
  rw [decodeMqttFields.eq_def, hnotnull]
  dsimp only
  rw [← hnotnull, g1, g2, g3, g4, g5, g6, g7]
  rw [jsOrDefault_of_truthy t1, jsOrDefault_of_truthy t2,
      jsOrDefault_of_truthy t3, jsOrDefault_str_emptyDefault,
      jsOrDefault_str_emptyDefault, jsOrDefault_str_emptyDefault,
      jsNullishDefault_num]

end RuleModal

/-- C1: For every valid `HTTPTargetConfig` and valid `MQTTTargetConfig`
held by the editor model (required fields non-empty, timeout in 1–120,
port in 1–65535, qos in {0, 1, 2}), saving the sub-dialog
(`saveTargetConfig`, `JSON.stringify`) and re-opening it
(`editTargetConfig`, `JSON.parse` and assign) at the same index under
the matching `target_type` reproduces the original value of every field
of the active editor model. -/
theorem target_config_round_trip
    (s : RuleModal.ModalState) (i : Nat) (t : ForwardingTarget)
    (hcur : s.currentTargetIndex = some i)
    (hget : s.formModel.targets[i]? = some t) :
    (s.targetConfigType = TargetType.http →
      RuleModal.httpStateValid s.httpConfig = true →
      Except.map (fun s2 => s2.httpConfig)
        ((RuleModal.saveTargetConfig s).bind (RuleModal.editTargetConfig i)) =
        Except.ok s.httpConfig) ∧
    (s.targetConfigType = TargetType.mqtt →
      RuleModal.mqttStateValid s.mqttConfig = true →
      Except.map (fun s2 => s2.mqttConfig)
        ((RuleModal.saveTargetConfig s).bind (RuleModal.editTargetConfig i)) =
        Except.ok s.mqttConfig) := by
  have hlen : i < s.formModel.targets.length := by
    rcases List.getElem?_eq_some.mp hget with ⟨h, _⟩
    exact h
  constructor
  · intro htype hv
    simp only [RuleModal.saveTargetConfig, hcur, hget, htype]
    simp only [Except.bind, RuleModal.editTargetConfig]
    rw [List.getElem?_set_self (by simpa using hlen)]
    simp only [RuleModal.decode_stringify_http s.httpConfig hv]
    rfl
  · intro htype hv
    simp only [RuleModal.saveTargetConfig, hcur, hget, htype]
    simp only [Except.bind, RuleModal.editTargetConfig]
    rw [List.getElem?_set_self (by simpa using hlen)]
    simp only [RuleModal.decode_stringify_mqtt s.mqttConfig hv]
    rfl

/-- A concrete valid http editor model. -/
def sampleHttpConfig : RuleModal.HttpConfigState :=
  { url := .str "https://example.com/webhook", method := .str "POST",
    headers := .obj [("X-Token", .str "abc")], secret := .str "",
    timeout := .num 30 }

/-- A concrete valid mqtt editor model. -/
def sampleMqttConfig : RuleModal.MqttConfigState :=
  { broker := .str "mqtt.example.com", port := .num 1883,
    topic := .str "iot/data/forwarded", username := .str "",
    password := .str "", client_id := .str "", qos := .num 0 }

/-- A target entry whose previous config is about to be overwritten. -/
def sampleTarget : ForwardingTarget :=
  { target_type := .http, config := some (.obj []) }

/-- A concrete rule form with one target. -/
def sampleFormModel : RuleModal.RuleFormModel :=
  { name := "r1", description := "", script_id := none, remark := "",
    sources := [], targets := [sampleTarget] }

/-- A concrete modal state with an http target open. -/
def sampleHttpState : RuleModal.ModalState :=
  { formModel := sampleFormModel,
    currentTargetIndex := some 0,
    targetConfigVisible := true,
    targetConfigType := .http,
    httpConfig := sampleHttpConfig,
    mqttConfig := RuleModal.initialMqttConfig }

/-- A concrete modal state with an mqtt target open. -/
def sampleMqttState : RuleModal.ModalState :=
  { formModel := sampleFormModel,
    currentTargetIndex := some 0,
    targetConfigVisible := true,
    targetConfigType := .mqtt,
    httpConfig := RuleModal.initialHttpConfig,
    mqttConfig := sampleMqttConfig }

/-- Witness for C1: the round trip evaluated at concrete valid http and
mqtt configurations. -/
theorem target_config_round_trip_witness :
    Except.map (fun s2 => s2.httpConfig)
        ((RuleModal.saveTargetConfig sampleHttpState).bind
          (RuleModal.editTargetConfig 0)) =
      Except.ok sampleHttpState.httpConfig ∧
    Except.map (fun s2 => s2.mqttConfig)
        ((RuleModal.saveTargetConfig sampleMqttState).bind
          (RuleModal.editTargetConfig 0)) =
      Except.ok sampleMqttState.mqttConfig :=
  ⟨(target_config_round_trip sampleHttpState 0 sampleTarget rfl rfl).1
      rfl (by decide),
   (target_config_round_trip sampleMqttState 0 sampleTarget rfl rfl).2
      rfl (by decide)⟩

/-- C6: With no recorded target index, `saveTargetConfig` is a complete
no-op on the state.  With a recorded in-range index `i`, it rewrites
exactly the target entry at `i` — only its `config` (re-encoded from
the active editor model) and its `target_type` — leaving every other
target entry, and every other field of the rule form model, unchanged
(the result is the old state except for the `targets` update, the
closed sub-dialog flag and the cleared index). -/
theorem saveTargetConfig_frame :
    (∀ (s : RuleModal.ModalState), s.currentTargetIndex = none →
      RuleModal.saveTargetConfig s = Except.ok s) ∧
    (∀ (s : RuleModal.ModalState) (i : Nat) (t : ForwardingTarget),
      s.currentTargetIndex = some i →
      s.formModel.targets[i]? = some t →
      ∃ t1 : ForwardingTarget,
        RuleModal.saveTargetConfig s = Except.ok
          { s with
            formModel := { s.formModel with
              targets := s.formModel.targets.set i t1 }
            targetConfigVisible := false
            currentTargetIndex := none } ∧
        t1.id = t.id ∧ t1.rule_id = t.rule_id ∧
        t1.target_type = s.targetConfigType ∧
        t1.config = some (match s.targetConfigType with
          | .http => RuleModal.stringifyHttpConfig s.httpConfig
          | .mqtt => RuleModal.stringifyMqttConfig s.mqttConfig) ∧
        (∀ j : Nat, j ≠ i →
          (s.formModel.targets.set i t1)[j]? = s.formModel.targets[j]?)) := by
  constructor
  · intro s hnone
    simp [RuleModal.saveTargetConfig, hnone]
  · intro s i t hcur hget
    refine ⟨{ t with
        config := some (match s.targetConfigType with
          | .http => RuleModal.stringifyHttpConfig s.httpConfig
          | .mqtt => RuleModal.stringifyMqttConfig s.mqttConfig)
        target_type := s.targetConfigType }, ?_, rfl, rfl, rfl, rfl, ?_⟩
    · simp [RuleModal.saveTargetConfig, hcur, hget]
    · intro j hj
      exact List.getElem?_set_ne (fun h => hj h.symm)

/-- Witness for C6: both branches evaluated at concrete states — the
http sample state with its open target, and the same state with the
index cleared. -/
theorem saveTargetConfig_frame_witness :
    RuleModal.saveTargetConfig
        { sampleHttpState with currentTargetIndex := none } =
      Except.ok { sampleHttpState with currentTargetIndex := none } ∧
    ∃ t1 : ForwardingTarget,
      RuleModal.saveTargetConfig sampleHttpState = Except.ok
        { sampleHttpState with
          formModel := { sampleHttpState.formModel with
            targets := sampleHttpState.formModel.targets.set 0 t1 }
          targetConfigVisible := false
          currentTargetIndex := none } ∧
      t1.id = sampleTarget.id ∧ t1.rule_id = sampleTarget.rule_id ∧
      t1.target_type = sampleHttpState.targetConfigType ∧
      t1.config = some (match sampleHttpState.targetConfigType with
        | .http => RuleModal.stringifyHttpConfig sampleHttpState.httpConfig
        | .mqtt => RuleModal.stringifyMqttConfig sampleHttpState.mqttConfig) ∧
      (∀ j : Nat, j ≠ 0 →
        (sampleHttpState.formModel.targets.set 0 t1)[j]? =
          sampleHttpState.formModel.targets[j]?) :=
  ⟨saveTargetConfig_frame.1
      { sampleHttpState with currentTargetIndex := none } rfl,
   saveTargetConfig_frame.2 sampleHttpState 0 sampleTarget rfl rfl⟩

/-- A target whose stored `config` string is not valid JSON. -/
def corruptTarget : ForwardingTarget :=
  { target_type := .http, config := none }

/-- A rule form holding only the corrupt target. -/
def corruptFormModel : RuleModal.RuleFormModel :=
  { name := "r2", description := "", script_id := none, remark := "",
    sources := [], targets := [corruptTarget] }

/-- A modal state whose http editor model still holds the values from a
previously edited target. -/
def staleState : RuleModal.ModalState :=
  { formModel := corruptFormModel,
    currentTargetIndex := none,
    targetConfigVisible := false,
    targetConfigType := .http,
    httpConfig := sampleHttpConfig,
    mqttConfig := RuleModal.initialMqttConfig }

/-- Counterexample to C2 as stated: editing the target whose config is
not valid JSON leaves the http editor model at the stale previous
values, not at the schema default (empty url / POST / timeout 30) — so
the editor model after the call is *not* the default configuration
"regardless of what the editor model held before the call". -/
theorem editTargetConfig_stale_counterexample :
    Except.map (fun s2 => s2.httpConfig)
        (RuleModal.editTargetConfig 0 staleState) =
      Except.ok sampleHttpConfig ∧
    sampleHttpConfig ≠ RuleModal.initialHttpConfig := by
  constructor
  · rfl
  · intro h
    have hurl : sampleHttpConfig.url = RuleModal.initialHttpConfig.url := by
      rw [h]
    simp [sampleHttpConfig, RuleModal.initialHttpConfig] at hurl

/-- C2 (amended): For every `ForwardingTarget` whose `config` string is
not valid JSON, `getTargetSummary` returns the placeholder dash, and
`editTargetConfig` completes without raising and leaves both
type-specific editor models *unchanged from their prior values* (the
parse error is swallowed); the state change is limited to recording the
index and type and opening the sub-dialog.  The model therefore shows
the schema defaults only when it already held them. -/
theorem invalid_config_edit_behavior :
    ∀ (s : RuleModal.ModalState) (i : Nat) (t : ForwardingTarget),
      s.formModel.targets[i]? = some t →
      t.config = none →
      RuleModal.getTargetSummary t = .str "-" ∧
      RuleModal.editTargetConfig i s = Except.ok
        { s with currentTargetIndex := some i,
                 targetConfigType := t.target_type,
                 targetConfigVisible := true } := by
  intro s i t hget hcfg
  constructor
  · simp [RuleModal.getTargetSummary, hcfg]
  · simp [RuleModal.editTargetConfig, hget, hcfg]

/-- Witness for the amended C2 at the concrete stale state. -/
theorem invalid_config_edit_behavior_witness :
    RuleModal.getTargetSummary corruptTarget = .str "-" ∧
    RuleModal.editTargetConfig 0 staleState = Except.ok
      { staleState with currentTargetIndex := some 0,
                        targetConfigType := corruptTarget.target_type,
                        targetConfigVisible := true } :=
  invalid_config_edit_behavior staleState 0 corruptTarget rfl rfl

/-- An http target whose config parses fine but carries an empty
`url`. -/
def emptyUrlTarget : ForwardingTarget :=
  { target_type := .http, config := some (.obj [("url", .str "")]) }

/-- Counterexample to C8 as stated: this http target's config parses as
JSON with `url` present (the empty string), yet `getTargetSummary`
returns the dash instead of the config's url. -/
theorem getTargetSummary_empty_url_counterexample :
    RuleModal.getTargetSummary emptyUrlTarget = .str "-" ∧
    RuleModal.getTargetSummary emptyUrlTarget ≠ .str "" := by
  refine ⟨rfl, ?_⟩
  intro h
  have h2 : ("-" : String) = "" :=
    JsonVal.str.inj ((rfl : RuleModal.getTargetSummary emptyUrlTarget = .str "-").symm.trans h)
  simp at h2

/-- C8 (amended): `getTargetSummary` returns the dash when the config
string does not parse; for an http target whose parsed config has a
non-empty string `url` it returns that url, and the dash when the url
is absent or empty (or the config is not an object); for an mqtt target
with a non-empty string `broker` it returns "broker (topic)" when the
`topic` is a non-empty string, and just the broker when the topic is
absent or empty. -/
theorem getTargetSummary_display :
    (∀ t : ForwardingTarget, t.config = none →
      RuleModal.getTargetSummary t = .str "-") ∧
    (∀ (t : ForwardingTarget) (j : JsonVal) (u : String),
      t.target_type = .http → t.config = some j →
      getProp j "url" = some (.str u) → u ≠ "" →
      RuleModal.getTargetSummary t = .str u) ∧
    (∀ (t : ForwardingTarget) (j : JsonVal),
      t.target_type = .http → t.config = some j →
      (getProp j "url" = some (.str "") ∨ getProp j "url" = none) →
      RuleModal.getTargetSummary t = .str "-") ∧
    (∀ (t : ForwardingTarget) (j : JsonVal) (b tp : String),
      t.target_type = .mqtt → t.config = some j →
      getProp j "broker" = some (.str b) → b ≠ "" →
      getProp j "topic" = some (.str tp) → tp ≠ "" →
      RuleModal.getTargetSummary t = .str (b ++ " (" ++ tp ++ ")")) ∧
    (∀ (t : ForwardingTarget) (j : JsonVal) (b : String),
      t.target_type = .mqtt → t.config = some j →
      getProp j "broker" = some (.str b) → b ≠ "" →
      (getProp j "topic" = some (.str "") ∨ getProp j "topic" = none) →
      RuleModal.getTargetSummary t = .str b) := by
  refine ⟨?_, ?_, ?_, ?_, ?_⟩
  · intro t hcfg
    simp [RuleModal.getTargetSummary, hcfg]
  · intro t j u htype hcfg hurl hu
    cases j <;> simp_all [getProp, RuleModal.getTargetSummary,
      jsOrDefault, jsTruthy]
  · intro t j htype hcfg hurl
    cases j <;> rcases hurl with h | h <;>
      simp_all [getProp, RuleModal.getTargetSummary, jsOrDefault, jsTruthy]
  · intro t j b tp htype hcfg hb hbne htp htpne
    cases j <;> simp_all [getProp, RuleModal.getTargetSummary,
      jsOrDefault, jsTruthy, jsDisplay, String.append_assoc]
  · intro t j b htype hcfg hb hbne htp
    cases j <;> rcases htp with h | h <;>
      simp_all [getProp, RuleModal.getTargetSummary, jsOrDefault,
        jsTruthy, jsDisplay]

/-- Witness for the amended C8: all five shapes evaluated at concrete
targets. -/
theorem getTargetSummary_display_witness :
    RuleModal.getTargetSummary corruptTarget = .str "-" ∧
    RuleModal.getTargetSummary
        { target_type := .http,
          config := some (.obj [("url", .str "https://x/y")]) } =
      .str "https://x/y" ∧
    RuleModal.getTargetSummary emptyUrlTarget = .str "-" ∧
    RuleModal.getTargetSummary
        { target_type := .mqtt,
          config := some (.obj [("broker", .str "b.example"),
                                ("topic", .str "iot/data")]) } =
      .str "b.example (iot/data)" ∧
    RuleModal.getTargetSummary
        { target_type := .mqtt,
          config := some (.obj [("broker", .str "b.example")]) } =
      .str "b.example" :=
  ⟨getTargetSummary_display.1 corruptTarget rfl,
   getTargetSummary_display.2.1 _ _ "https://x/y" rfl rfl rfl (by decide),
   getTargetSummary_display.2.2.1 _ _ rfl rfl (Or.inl rfl),
   getTargetSummary_display.2.2.2.1 _ _ "b.example" "iot/data" rfl rfl rfl
     (by decide) rfl (by decide),
   getTargetSummary_display.2.2.2.2 _ _ "b.example" rfl rfl rfl (by decide)
     (Or.inr rfl)⟩

/-- C4: For a rule row whose `enabled` is 0 or 1, `handleToggleStatus`
issues exactly one status-update call carrying the row's id and the
opposite enabled value `1 - enabled`; the displayed `enabled` becomes
the new value iff the call returns without error, and on a failing
call the row is fully unchanged. -/
theorem handleToggleStatus_spec :
    ∀ (row : RuleList.RuleRow)
      (statusErr : RuleList.RuleStatusParams → Option String),
      row.enabled = 0 ∨ row.enabled = 1 →
      (RuleList.handleToggleStatus row statusErr).2 =
        [⟨row.id, 1 - row.enabled⟩] ∧
      ((RuleList.handleToggleStatus row statusErr).1.enabled =
          1 - row.enabled ↔
        statusErr ⟨row.id, 1 - row.enabled⟩ = none) ∧
      (statusErr ⟨row.id, 1 - row.enabled⟩ ≠ none →
        (RuleList.handleToggleStatus row statusErr).1 = row) := by
  intro row statusErr h
  obtain ⟨rid, ren⟩ := row
  rcases h with h | h <;> subst h <;>
    by_cases he : statusErr ⟨rid, 1⟩ = none <;>
    by_cases he0 : statusErr ⟨rid, 0⟩ = none <;>
    simp_all [RuleList.handleToggleStatus]

/-- Witness for C4: toggling a concrete enabled row with a succeeding
call, and a concrete disabled row with a failing call. -/
theorem handleToggleStatus_spec_witness :
    ((RuleList.handleToggleStatus ⟨"rule-1", 1⟩ (fun _ => none)).2 =
        [⟨"rule-1", 0⟩] ∧
      ((RuleList.handleToggleStatus ⟨"rule-1", 1⟩ (fun _ => none)).1.enabled =
          0 ↔ (none : Option String) = none) ∧
      ((none : Option String) ≠ none →
        (RuleList.handleToggleStatus ⟨"rule-1", 1⟩ (fun _ => none)).1 =
          ⟨"rule-1", 1⟩)) ∧
    ((RuleList.handleToggleStatus ⟨"rule-2", 0⟩ (fun _ => some "e")).2 =
        [⟨"rule-2", 1⟩] ∧
      ((RuleList.handleToggleStatus ⟨"rule-2", 0⟩ (fun _ => some "e")).1.enabled =
          1 ↔ (some "e" : Option String) = none) ∧
      ((some "e" : Option String) ≠ none →
        (RuleList.handleToggleStatus ⟨"rule-2", 0⟩ (fun _ => some "e")).1 =
          ⟨"rule-2", 0⟩)) := by
  constructor
  · have h := handleToggleStatus_spec ⟨"rule-1", 1⟩ (fun _ => none)
      (Or.inr rfl)
    simpa using h
  · have h := handleToggleStatus_spec ⟨"rule-2", 0⟩ (fun _ => some "e")
      (Or.inl rfl)
    simpa using h

/-- C5: Submitting the rule editor with an empty `name` (and the form
instance present, so validation runs) issues no create or update call:
the required-field validation rejects before any request. -/
theorem handleSubmit_empty_name_no_call :
    ∀ (mode : RuleModal.ModalType) (editId : Option String)
      (fm : RuleModal.RuleFormModel)
      (createErr updateErr : RuleModal.SubmitRule → Option String),
      fm.name = "" →
      (RuleModal.handleSubmit mode editId true fm createErr updateErr).1 =
        [] ∧
      (RuleModal.handleSubmit mode editId true fm createErr updateErr).2 =
        RuleModal.SubmitOutcome.validationRejected := by
  intro mode editId fm createErr updateErr h
  constructor <;>
    simp [RuleModal.handleSubmit, RuleModal.ruleFormValidates, h]

/-- Witness for C5 at a concrete empty-name form. -/
theorem handleSubmit_empty_name_no_call_witness :
    (RuleModal.handleSubmit RuleModal.ModalType.add none true
        ⟨"", "", none, "", [], []⟩ (fun _ => none) (fun _ => none)).1 =
      [] ∧
    (RuleModal.handleSubmit RuleModal.ModalType.add none true
        ⟨"", "", none, "", [], []⟩ (fun _ => none) (fun _ => none)).2 =
      RuleModal.SubmitOutcome.validationRejected :=
  handleSubmit_empty_name_no_call RuleModal.ModalType.add none
    ⟨"", "", none, "", [], []⟩ (fun _ => none) (fun _ => none) rfl

/-- C7: In the 4-way parallel option load, if any one of the four
fetches rejects, the `Promise.all` join rejects, the `catch` swallows
it, and none of the four option lists is populated — the state is
returned unchanged (`loadOptions` is total: it never raises). -/
theorem loadOptions_all_or_nothing :
    ∀ (scripts : Except Unit (Option (List RuleModal.ScriptItem)))
      (devices : Except Unit (Option (RuleModal.PagedData RuleModal.ListItem)))
      (products : Except Unit (Option (RuleModal.PagedData RuleModal.ListItem)))
      (groups : Except Unit (Option RuleModal.GroupsData))
      (st : RuleModal.OptionsState),
      (scripts = .error () ∨ devices = .error () ∨ products = .error () ∨
        groups = .error ()) →
      RuleModal.loadOptions scripts devices products groups st = st := by
  intro scripts devices products groups st h
  cases scripts <;> cases devices <;> cases products <;> cases groups <;>
    simp_all [RuleModal.loadOptions]

/-- Witness for C7: a concrete load where only the group-tree fetch
rejects leaves a concrete non-empty state untouched. -/
theorem loadOptions_all_or_nothing_witness :
    RuleModal.loadOptions (Except.ok (some [⟨"s1", "script one"⟩]))
      (Except.ok (some ⟨some [⟨"d1", some "dev"⟩]⟩))
      (Except.ok (some ⟨some [⟨"p1", none⟩]⟩))
      (Except.error ())
      ⟨[⟨"a", "b"⟩], [], [], []⟩ =
    ⟨[⟨"a", "b"⟩], [], [], []⟩ :=
  loadOptions_all_or_nothing (Except.ok (some [⟨"s1", "script one"⟩]))
    (Except.ok (some ⟨some [⟨"d1", some "dev"⟩]⟩))
    (Except.ok (some ⟨some [⟨"p1", none⟩]⟩))
    (Except.error ()) ⟨[⟨"a", "b"⟩], [], [], []⟩
    (Or.inr (Or.inr (Or.inr rfl)))

/-- C9: With an empty `script_content`, `handleTest` shows the warning
and issues no network call; with a non-empty `script_content` it issues
exactly one test request carrying the current
`{ script_content, test_data }`. -/
theorem handleTest_spec :
    ∀ (fm : ScriptTest.TestFormModel)
      (prev : Option ScriptTest.ScriptTestResult)
      (resp : ScriptTest.ScriptTestParams → ApiResp ScriptTest.ScriptTestResult),
      (fm.script_content = "" →
        (ScriptTest.handleTest fm prev resp).2.1 = [] ∧
        (ScriptTest.handleTest fm prev resp).2.2 =
          [.warning "dataForwarding.scriptRequired"]) ∧
      (fm.script_content ≠ "" →
        (ScriptTest.handleTest fm prev resp).2.1 =
          [⟨fm.script_content, fm.test_data⟩]) := by
  intro fm prev resp
  constructor
  · intro h
    constructor <;> simp [ScriptTest.handleTest, h]
  · intro h
    simp only [ScriptTest.handleTest, if_neg h]
    cases he : (resp ⟨fm.script_content, fm.test_data⟩).error <;>
      cases hd : (resp ⟨fm.script_content, fm.test_data⟩).data <;>
      simp [he, hd]

/-- Witness for C9: a concrete empty script warns without a call; a
concrete non-empty script issues exactly its one request. -/
theorem handleTest_spec_witness :
    ((ScriptTest.handleTest ⟨"", "{}"⟩ none
        (fun _ => ⟨some ⟨true, "ok", ""⟩, none⟩)).2.1 = [] ∧
      (ScriptTest.handleTest ⟨"", "{}"⟩ none
        (fun _ => ⟨some ⟨true, "ok", ""⟩, none⟩)).2.2 =
        [.warning "dataForwarding.scriptRequired"]) ∧
    (ScriptTest.handleTest ⟨"return payload", "{}"⟩ none
        (fun _ => ⟨some ⟨true, "ok", ""⟩, none⟩)).2.1 =
      [⟨"return payload", "{}"⟩] :=
  ⟨(handleTest_spec ⟨"", "{}"⟩ none
      (fun _ => ⟨some ⟨true, "ok", ""⟩, none⟩)).1 rfl,
   (handleTest_spec ⟨"return payload", "{}"⟩ none
      (fun _ => ⟨some ⟨true, "ok", ""⟩, none⟩)).2 (by decide)⟩

/-- C10: In edit mode, when the detail fetch returns a record whose
`script_content` is absent or the empty string, `loadEditData`
populates the editor with the default Lua template, which is non-empty
— an edit session never presents an empty script editor. -/
theorem loadEditData_defaults_empty_content :
    ∀ (i : String) (resp : String → ApiResp ScriptModal.ScriptDetail)
      (fm : ScriptModal.ScriptFormModel) (d : ScriptModal.ScriptDetail),
      i ≠ "" →
      (resp i).data = some d →
      (d.script_content = none ∨ d.script_content = some "") →
      (ScriptModal.loadEditData (some i) resp fm).script_content =
        ScriptModal.defaultScriptContent ∧
      ScriptModal.defaultScriptContent ≠ "" := by
  intro i resp fm d hi hd hsc
  constructor
  · rcases hsc with h | h <;>
      simp [ScriptModal.loadEditData, hi, hd, h, jsOrStr]
  · decide

/-- Witness for C10 at a concrete edit session whose stored script
content is empty. -/
theorem loadEditData_defaults_empty_content_witness :
    (ScriptModal.loadEditData (some "s1")
        (fun _ => ⟨some ⟨some "n", none, some "", none⟩, none⟩)
        ScriptModal.resetForm).script_content =
      ScriptModal.defaultScriptContent ∧
    ScriptModal.defaultScriptContent ≠ "" :=
  loadEditData_defaults_empty_content "s1"
    (fun _ => ⟨some ⟨some "n", none, some "", none⟩, none⟩)
    ScriptModal.resetForm ⟨some "n", none, some "", none⟩
    (by decide) rfl (Or.inr rfl)
